import Mathlib

/-! # The `call<>` transform of Boost.Proto

A shallow embedding of `boost/proto/transform/call.hpp`.

* Values of every C++ type live in one value universe `V`, a type parameter.
  An expression, a state and a data value are elements of `V`.
* A transform applied to `(expr, state, data)` is a function `V → V → V → V`.
* A call target `Fun` is a record of what `call<>` uses of it: the constant
  `is_transform<Fun>::value`, its function-call operator `Fun()(a0, ..)` on an
  argument list, and its transform implementation
  `Fun::impl<E, S, D>()(e, s, d)`.
* Every specialization of `call<>` is embedded on its own (`call0`, `call1`,
  `call2`, `call3` for the four written out by hand, `callN` for the one that
  the preprocessor iteration stamps out for the arities
  `4 .. BOOST_PROTO_MAX_ARITY`), each with its `impl2` and `impl` members.
-/

namespace Proto

variable {V : Type}

/-- A transform as a function of the current expression, state and data. -/
abbrev Transform (V : Type) := V → V → V → V

/-- The target `Fun` of `call<Fun(A0, ..)>`: `is_transform` is
`is_transform<Fun>::value`, `call args` is `Fun()(args..)`, and
`impl e s d` is `typename Fun::template impl<E, S, D>()(e, s, d)`. -/
structure Fun (V : Type) where
  is_transform : Bool
  call : List V → V
  impl : V → V → V → V

/-- Modelled from the spec: `detail::as_lvalue` of `detail/as_lvalue.hpp`,
the addressability wrapper (section 4.5): it hands back the value it is
given, as an addressable alias, without copying or changing it. -/
def as_lvalue (v : V) : V := v

/-- Modelled from the spec: `when<_, A>::impl<Expr, State, Data>()` of
`transform/when.hpp`, the argument evaluator (section 4.3): the descriptor
`A` is itself applied as a transform to the current
`(expr, state, data)` and its result is returned. -/
def when_ (A : Transform V) : Transform V := fun expr state data => A expr state data

/-- Modelled from the spec: `detail::as_mono_function<Fun(a0, ..)>::type` of
`detail/poly_function.hpp`: the target callable at the resolved argument types;
calling it is calling `Fun` with these arguments (section 4.4, Protocol A). -/
def as_mono_function (F : Fun V) : List V → V := fun args => F.call args

/-! ## `call<Fun()>` (lines 89-133) -/

/-- The member `call<Fun()>::impl2<Expr, State, Data, B>`: the primary template
returns `Fun()()`, the specialization for `B = true` derives from
`Fun::impl<Expr, State, Data>`. -/
def call0.impl2 (F : Fun V) : Bool → Transform V
  | false => fun _ _ _ => F.call []
  | true => fun expr state data => F.impl expr state data

/-- The member `call<Fun()>::impl`, which is
`impl2<Expr, State, Data, is_transform<Fun>::value>`. -/
def call0.impl (F : Fun V) : Transform V :=
  call0.impl2 F F.is_transform

/-! ## `call<Fun(A0)>` (lines 138-203) -/

/-- The member `call<Fun(A0)>::impl2<Expr, State, Data, B>`. -/
def call1.impl2 (F : Fun V) (A0 : Transform V) : Bool → Transform V
  | false => fun expr state data =>
      as_mono_function F [as_lvalue (when_ A0 expr state data)]
  | true => fun expr state data =>
      F.impl (when_ A0 expr state data) state data

/-- The member `call<Fun(A0)>::impl`. -/
def call1.impl (F : Fun V) (A0 : Transform V) : Transform V :=
  call1.impl2 F A0 F.is_transform

/-! ## `call<Fun(A0, A1)>` (lines 208-282) -/

/-- The member `call<Fun(A0, A1)>::impl2<Expr, State, Data, B>`. -/
def call2.impl2 (F : Fun V) (A0 A1 : Transform V) : Bool → Transform V
  | false => fun expr state data =>
      as_mono_function F
        [as_lvalue (when_ A0 expr state data), as_lvalue (when_ A1 expr state data)]
  | true => fun expr state data =>
      F.impl (when_ A0 expr state data) (when_ A1 expr state data) data

/-- The member `call<Fun(A0, A1)>::impl`. -/
def call2.impl (F : Fun V) (A0 A1 : Transform V) : Transform V :=
  call2.impl2 F A0 A1 F.is_transform

/-! ## `call<Fun(A0, A1, A2)>` (lines 288-349) -/

/-- The member `call<Fun(A0, A1, A2)>::impl2<Expr, State, Data, B>`. -/
def call3.impl2 (F : Fun V) (A0 A1 A2 : Transform V) : Bool → Transform V
  | false => fun expr state data =>
      as_mono_function F
        [as_lvalue (when_ A0 expr state data), as_lvalue (when_ A1 expr state data),
         as_lvalue (when_ A2 expr state data)]
  | true => fun expr state data =>
      F.impl (when_ A0 expr state data) (when_ A1 expr state data)
        (when_ A2 expr state data)

/-- The member `call<Fun(A0, A1, A2)>::impl`. -/
def call3.impl (F : Fun V) (A0 A1 A2 : Transform V) : Transform V :=
  call3.impl2 F A0 A1 A2 F.is_transform

/-! ## `call<Fun(A0, .., A(N-1))>` for `N = 4 .. BOOST_PROTO_MAX_ARITY` (lines 351-354, 369-421)

The file includes itself once for every `N` of the iteration; the text of one
iteration is lines 369-421. What the preprocessor leaves of `operator()`
depends on how its physical lines are joined, so the lines are embedded as
they stand, each with the flag "ends in a backslash". -/

/-- One physical source line: its text without the surrounding blanks and
without the final backslash, and whether it ends in a backslash. -/
structure SourceLine where
  text : String
  continued : Bool

/-- Line splicing, the second phase of translation: a line that ends in a
backslash is joined with the line after it into one logical line. -/
def splice_lines : List SourceLine → List String
  | [] => []
  | l :: rest =>
    if l.continued then
      match splice_lines rest with
      | [] => [l.text]
      | s :: ss => (l.text ++ " " ++ s) :: ss
    else l.text :: splice_lines rest

/-- A logical line that starts with `#` is a preprocessing directive. -/
def is_directive (s : String) : Bool := s.data.head? == some '#'

/-- The logical lines that are not directives: the text that is left for the
compiler (before the expansion of the defined names in it). -/
def statements (ls : List SourceLine) : List String :=
  (splice_lines ls).filter (fun s => !is_directive s)

/-- A statement that starts with the keyword `return`. -/
def is_return (s : String) : Bool := s.data.take 6 == "return".data

/-- Lines 380-388, inside `call<Fun(A0..)>::impl`: the first `M0`, which
declares the typedefs `a0 .. a(N-1)`. -/
def callN.typedef_lines : List SourceLine :=
  [⟨"#define M0(Z, M, DATA)", true⟩,
   ⟨"typedef", true⟩,
   ⟨"typename when<_, BOOST_PP_CAT(A, M)>", true⟩,
   ⟨"::template impl<Expr, State, Data>", true⟩,
   ⟨"::result_type", true⟩,
   ⟨"BOOST_PP_CAT(a, M);", true⟩,
   ⟨"/**/", false⟩,
   ⟨"BOOST_PP_REPEAT(N, M0, ~)", false⟩,
   ⟨"#undef M0", false⟩]

/-- Lines 411-416, all that stands between the braces of
`call<Fun(A0..)>::impl::operator()`. -/
def callN.operator_lines : List SourceLine :=
  [⟨"#define M0(Z, M, DATA)", true⟩,
   ⟨"detail::as_lvalue(", true⟩,
   ⟨"typename when<_, BOOST_PP_CAT(A, M)>", true⟩,
   ⟨"::template impl<Expr, State, Data>()(expr, state, data))", true⟩,
   ⟨"return mono_fun()(BOOST_PP_ENUM(N, M0, ~));", false⟩,
   ⟨"#undef M0", false⟩]

/-- The statements of the body of `call<Fun(A0..)>::impl::operator()`. -/
def callN.operator_body : List String := statements callN.operator_lines

/-- The result of running an `operator()`: it returned a value, or control
reached its closing brace with no `return` executed (no value is produced;
undefined behaviour for a non-void `result_type`), or the composite has no
specialization at all. -/
inductive Outcome (V : Type) where
  | value (v : V)
  | no_return
  | no_specialization
  deriving DecidableEq, Repr

/-- The member `call<Fun(A0, .., A(N-1))>::impl::operator()`, run on
`(expr, state, data)`. Its body is `callN.operator_body`. The statement
`return mono_fun()(BOOST_PP_ENUM(N, M0, ~));`, if it is in the body, returns
`mono_fun` applied to the `N` expansions of `M0`, the `M`-th being
`detail::as_lvalue(when<_, A_M>::impl<Expr, State, Data>()(expr, state, data))`;
a body without a `return` statement returns nothing. -/
def callN.impl (F : Fun V) (As : List (Transform V)) : V → V → V → Outcome V :=
  fun expr state data =>
    if callN.operator_body.any is_return then
      Outcome.value
        (as_mono_function F (As.map fun A => as_lvalue (when_ A expr state data)))
    else Outcome.no_return

/-- The composite `call<Fun(A0, .., A(n-1))>` run on `(expr, state, data)`:
the partial specialization that matches the signature is chosen by the number
of descriptors. Lines 351-354 generate the specializations for
`4 .. BOOST_PROTO_MAX_ARITY` and only if `BOOST_PROTO_MAX_ARITY > 3`; a longer
signature has none. `BOOST_PROTO_MAX_ARITY` is defined in `proto_fwd.hpp`. -/
def call_sig (BOOST_PROTO_MAX_ARITY : Nat) (F : Fun V) (As : List (Transform V)) :
    V → V → V → Outcome V :=
  fun expr state data =>
    match As with
    | [] => Outcome.value (call0.impl F expr state data)
    | [A0] => Outcome.value (call1.impl F A0 expr state data)
    | [A0, A1] => Outcome.value (call2.impl F A0 A1 expr state data)
    | [A0, A1, A2] => Outcome.value (call3.impl F A0 A1 A2 expr state data)
    | _ =>
      if As.length ≤ BOOST_PROTO_MAX_ARITY then callN.impl F As expr state data
      else Outcome.no_specialization

/-- What the doc comment of the generated `operator()` (lines 398-400) and
section 4.4 of the spec say the N-ary pattern returns: with `ax` being
`when<_, Ax>()(expr, state, data)`, the value `Fun()(a0, a1, ..)`. -/
def callN_documented (F : Fun V) (As : List (Transform V)) : Transform V :=
  fun expr state data => F.call (As.map fun A => when_ A expr state data)

/-! ## The two protocols -/

/-- Protocol A in the words of the spec (section 4.4): the target is invoked
with the resolved argument values, each wrapped by the addressability
wrapper. -/
def spec_protocol_A (F : Fun V) (As : List (Transform V)) : Transform V :=
  fun expr state data => F.call (As.map fun A => as_lvalue (when_ A expr state data))

/-- Protocol B in the words of the spec (section 4.4): the three-argument
contract of the target is invoked; the resolved argument values replace the
expression, state and data slots from the left, and a slot with no resolved
argument keeps the original value. -/
def spec_protocol_B (F : Fun V) (As : List (Transform V)) : Transform V :=
  fun expr state data =>
    let r := As.map fun A => when_ A expr state data
    F.impl (r.getD 0 expr) (r.getD 1 state) (r.getD 2 data)

/-! ## The primary template `call<PrimitiveTransform>` (lines 81-84, 356-361) -/

/-- The primary template `struct call : PrimitiveTransform {}`: a derived
struct with an empty body, which inherits every member of its base. -/
def call (T : Fun V) : Fun V :=
  ⟨T.is_transform, T.call, T.impl⟩

/-- The trait `is_callable<call<Fun> >`, which derives from `mpl::true_`
whatever `Fun` is. -/
def is_callable_call (_F : Fun V) : Bool := true

/-- Modelled from the spec: `when<_, R(A0)>` of `transform/when.hpp`, for a
signature `R(A0)` and the value of `is_callable<R>`: a signature whose `R` is
known to be callable is a Function-Call Transform, the composite
`call<R(A0)>` that pairs the target `R` with the descriptor `A0` (section 3);
a signature whose `R` is not callable is not a call, and there is nothing to
run here (`none`). -/
def when_sig (is_callable : Bool) (R : Fun V) (A0 : Transform V) :
    Option (Transform V) :=
  if is_callable then some (call1.impl R A0) else none

/-! ## Descriptors and targets of the spec's scenarios -/

/-- The descriptor that passes the current expression through. -/
def pass_expr : Transform V := fun expr _ _ => expr

/-- The descriptor that passes the current state through. -/
def pass_state : Transform V := fun _ state _ => state

/-- The descriptor that passes the current data through. -/
def pass_data : Transform V := fun _ _ data => data

/-- The constant transform producing `v`. -/
def const_ (v : V) : Transform V := fun _ _ _ => v

/-- A transform `G` that returns the current state unchanged. Its call
operator, which `call<G()>` does not use for a transform, returns the empty
string. -/
def state_transform : Fun String :=
  ⟨true, fun _ => "", fun _ state _ => state⟩

/-- The addition function, an ordinary callable: `F()(x, y) = x + y`, and the
sum of its arguments at any other arity. It is not a transform, and its `impl`
field is never consulted. -/
def plus : Fun Int :=
  ⟨false, fun args => args.sum, fun expr _ _ => expr⟩

/-- A transform that doubles its first argument and ignores the rest; its
call operator does the same. -/
def doubler : Fun Int :=
  ⟨true, fun args => 2 * args.headD 0, fun expr _ _ => 2 * expr⟩

/-- A transform that adds its three arguments; called with fewer arguments,
the missing state and data are 0, as `transform<>::operator()` passes them. -/
def add3 : Fun Int :=
  ⟨true, fun args => args.sum, fun expr state data => expr + state + data⟩

/-! ## Descriptors and targets that may fail

A descriptor or a target may throw a C++ exception instead of returning. Such
a function returns `Except E V`: `Except.ok v` when it returns `v`,
`Except.error x` when it throws `x`. The specializations are embedded once
more over such functions, statement for statement as above. The arguments of
a call are evaluated before the call, in an order that C++ leaves open; the
order is the parameter `ord`, the list of the argument positions in the order
of their evaluation, and the exception that leaves the call expression is the
one of the first argument, in that order, that throws. -/

variable {E : Type}

/-- A transform that returns a value or throws. -/
abbrev ThrowingTransform (E V : Type) := V → V → V → Except E V

/-- A target whose call operator and whose transform implementation return a
value or throw; the fields are those of `Fun`. -/
structure ThrowingFun (E V : Type) where
  is_transform : Bool
  call : List V → Except E V
  impl : V → V → V → Except E V

/-- Modelled from the spec: `when<_, A>::impl<Expr, State, Data>()` of
`transform/when.hpp` for a descriptor that may throw (section 4.3): the
descriptor is applied to the current `(expr, state, data)`, and what it
returns or throws is what the evaluator returns or throws. -/
def when_throwing (A : ThrowingTransform E V) : ThrowingTransform E V :=
  fun expr state data => A expr state data

/-- The exception of the first argument, in the evaluation order `ord`, whose
evaluation throws; `rs` are the outcomes of the arguments by position. -/
def first_thrown (ord : List Nat) (rs : List (Except E V)) : Option E :=
  ord.findSome? fun i =>
    match rs[i]? with
    | some (Except.error x) => some x
    | _ => none

/-- The evaluation of two arguments in the order `ord`: the first exception
in that order leaves the call expression; positions that `ord` does not list
are looked at afterwards, from left to right. -/
def arguments2 (ord : List Nat) (r0 r1 : Except E V) : Except E (V × V) :=
  match first_thrown ord [r0, r1] with
  | some x => Except.error x
  | none => do
    let a0 ← r0
    let a1 ← r1
    pure (a0, a1)

/-- The evaluation of three arguments in the order `ord`. -/
def arguments3 (ord : List Nat) (r0 r1 r2 : Except E V) : Except E (V × V × V) :=
  match first_thrown ord [r0, r1, r2] with
  | some x => Except.error x
  | none => do
    let a0 ← r0
    let a1 ← r1
    let a2 ← r2
    pure (a0, a1, a2)

/-- The evaluation of a list of arguments in the order `ord`. -/
def argumentsN (ord : List Nat) (rs : List (Except E V)) : Except E (List V) :=
  match first_thrown ord rs with
  | some x => Except.error x
  | none => rs.mapM id

/-- The member `call<Fun()>::impl2<Expr, State, Data, B>` over a target that
may throw. -/
def call0.impl2_throwing (F : ThrowingFun E V) : Bool → ThrowingTransform E V
  | false => fun _ _ _ => F.call []
  | true => fun expr state data => F.impl expr state data

/-- The member `call<Fun()>::impl` over a target that may throw. -/
def call0.impl_throwing (F : ThrowingFun E V) : ThrowingTransform E V :=
  call0.impl2_throwing F F.is_transform

/-- The member `call<Fun(A0)>::impl2<Expr, State, Data, B>` over a descriptor
and a target that may throw. -/
def call1.impl2_throwing (F : ThrowingFun E V) (A0 : ThrowingTransform E V) :
    Bool → ThrowingTransform E V
  | false => fun expr state data => do
    let a0 ← when_throwing A0 expr state data
    F.call [as_lvalue a0]
  | true => fun expr state data => do
    let a0 ← when_throwing A0 expr state data
    F.impl a0 state data

/-- The member `call<Fun(A0)>::impl` over functions that may throw. -/
def call1.impl_throwing (F : ThrowingFun E V) (A0 : ThrowingTransform E V) :
    ThrowingTransform E V :=
  call1.impl2_throwing F A0 F.is_transform

/-- The member `call<Fun(A0, A1)>::impl2<Expr, State, Data, B>` over
functions that may throw. -/
def call2.impl2_throwing (ord : List Nat) (F : ThrowingFun E V)
    (A0 A1 : ThrowingTransform E V) : Bool → ThrowingTransform E V
  | false => fun expr state data => do
    let (a0, a1) ← arguments2 ord (when_throwing A0 expr state data)
      (when_throwing A1 expr state data)
    F.call [as_lvalue a0, as_lvalue a1]
  | true => fun expr state data => do
    let (a0, a1) ← arguments2 ord (when_throwing A0 expr state data)
      (when_throwing A1 expr state data)
    F.impl a0 a1 data

/-- The member `call<Fun(A0, A1)>::impl` over functions that may throw. -/
def call2.impl_throwing (ord : List Nat) (F : ThrowingFun E V)
    (A0 A1 : ThrowingTransform E V) : ThrowingTransform E V :=
  call2.impl2_throwing ord F A0 A1 F.is_transform

/-- The member `call<Fun(A0, A1, A2)>::impl2<Expr, State, Data, B>` over
functions that may throw. -/
def call3.impl2_throwing (ord : List Nat) (F : ThrowingFun E V)
    (A0 A1 A2 : ThrowingTransform E V) : Bool → ThrowingTransform E V
  | false => fun expr state data => do
    let (a0, a1, a2) ← arguments3 ord (when_throwing A0 expr state data)
      (when_throwing A1 expr state data) (when_throwing A2 expr state data)
    F.call [as_lvalue a0, as_lvalue a1, as_lvalue a2]
  | true => fun expr state data => do
    let (a0, a1, a2) ← arguments3 ord (when_throwing A0 expr state data)
      (when_throwing A1 expr state data) (when_throwing A2 expr state data)
    F.impl a0 a1 a2

/-- The member `call<Fun(A0, A1, A2)>::impl` over functions that may throw. -/
def call3.impl_throwing (ord : List Nat) (F : ThrowingFun E V)
    (A0 A1 A2 : ThrowingTransform E V) : ThrowingTransform E V :=
  call3.impl2_throwing ord F A0 A1 A2 F.is_transform

/-- The member `call<Fun(A0, .., A(N-1))>::impl::operator()` over functions
that may throw, with the body `callN.operator_body`: its `return` statement,
if it is in the body, evaluates the `N` expansions of `M0` and calls
`mono_fun` with them; a body without a `return` statement returns nothing and
throws nothing. -/
def callN.impl_throwing (ord : List Nat) (F : ThrowingFun E V)
    (As : List (ThrowingTransform E V)) : V → V → V → Outcome (Except E V) :=
  fun expr state data =>
    if callN.operator_body.any is_return then
      Outcome.value (do
        let args ← argumentsN ord (As.map fun A => when_throwing A expr state data)
        F.call (args.map as_lvalue))
    else Outcome.no_return

/-- The composite `call<Fun(A0, .., A(n-1))>` over functions that may throw,
run on `(expr, state, data)`; the specialization is chosen as in `call_sig`. -/
def call_sig_throwing (BOOST_PROTO_MAX_ARITY : Nat) (ord : List Nat)
    (F : ThrowingFun E V) (As : List (ThrowingTransform E V)) :
    V → V → V → Outcome (Except E V) :=
  fun expr state data =>
    match As with
    | [] => Outcome.value (call0.impl_throwing F expr state data)
    | [A0] => Outcome.value (call1.impl_throwing F A0 expr state data)
    | [A0, A1] => Outcome.value (call2.impl_throwing ord F A0 A1 expr state data)
    | [A0, A1, A2] => Outcome.value (call3.impl_throwing ord F A0 A1 A2 expr state data)
    | _ =>
      if As.length ≤ BOOST_PROTO_MAX_ARITY then
        callN.impl_throwing ord F As expr state data
      else Outcome.no_specialization

/-- What the target returns or throws on the resolved values `vs`, by the
protocol of the hand-written specializations: `Fun()(vs..)` for an ordinary
callable; for a transform `Fun::impl()` on the resolved values, the slots
without a resolved value holding the original state and data. -/
def target_on (F : ThrowingFun E V) (vs : List V) : ThrowingTransform E V :=
  fun expr state data =>
    if F.is_transform then F.impl (vs.getD 0 expr) (vs.getD 1 state) (vs.getD 2 data)
    else F.call vs

/-- A descriptor that never throws, made of a transform. -/
def returning (A : Transform V) : ThrowingTransform E V :=
  fun expr state data => Except.ok (A expr state data)

/-- A descriptor that always throws `x`. -/
def throwing (x : E) : ThrowingTransform E V := fun _ _ _ => Except.error x

/-- The addition function as a target that never throws. -/
def plus_returning : ThrowingFun String Int :=
  ⟨false, fun args => Except.ok args.sum, fun expr _ _ => Except.ok expr⟩

/-- Integer division `F()(x, y) = x / y` as an ordinary callable that throws
on a zero divisor and on any other number of arguments. -/
def divide : ThrowingFun String Int :=
  ⟨false,
   fun args =>
     match args with
     | [x, y] => if y = 0 then Except.error "division by zero" else Except.ok (x / y)
     | _ => Except.error "arity",
   fun expr _ _ => Except.ok expr⟩

/-! ## Theorems -/

/-- C1. Nullary pass-through: when `Fun` is a transform, `call<Fun()>` applied
to `(expr, state, data)` returns what `Fun`'s own implementation returns on the
same three values; so if `Fun` returns the state, so does `call<Fun()>`. -/
theorem call0_pass_through (F : Fun V) (hF : F.is_transform = true)
    (expr state data : V) :
    call0.impl F expr state data = F.impl expr state data ∧
    ((∀ e s d, F.impl e s d = s) → call0.impl F expr state data = state) := by
  have h : call0.impl F expr state data = F.impl expr state data := by
    simp [call0.impl, hF, call0.impl2]
  exact ⟨h, fun hs => by rw [h, hs]⟩

/-- Witness of C1: the nullary composite around the transform returning the
state, invoked with state `"s"`, yields `"s"`. -/
theorem call0_pass_through_witness :
    state_transform.is_transform = true ∧
    call0.impl state_transform "e" "s" "d" = "s" :=
  ⟨rfl, (call0_pass_through state_transform rfl "e" "s" "d").2 (fun _ _ _ => rfl)⟩

/-- C2. Protocol A for the hand-written arities: when `Fun` is not a
transform, `call<Fun(A0, .., A(n-1))>` for `n = 0, 1, 2, 3` returns `Fun`
applied to the `n` descriptors resolved against `(expr, state, data)`, in
positional order; for `n = 0` that is `Fun()()`, whatever the three inputs
are; and the addressability wrapper changes no value. -/
theorem protocol_A_hand_written (F : Fun V) (hF : F.is_transform = false)
    (A0 A1 A2 : Transform V) (expr state data : V) :
    (call0.impl F expr state data = F.call [] ∧
      ∀ e s d, call0.impl F e s d = call0.impl F expr state data) ∧
    call1.impl F A0 expr state data = F.call [when_ A0 expr state data] ∧
    call2.impl F A0 A1 expr state data =
      F.call [when_ A0 expr state data, when_ A1 expr state data] ∧
    call3.impl F A0 A1 A2 expr state data =
      F.call [when_ A0 expr state data, when_ A1 expr state data,
        when_ A2 expr state data] ∧
    (∀ (m : Nat) (As : List (Transform V)), As.length ≤ 3 →
      call_sig m F As expr state data =
        Outcome.value (F.call (As.map fun A => when_ A expr state data))) ∧
    (∀ v : V, as_lvalue v = v) := by
  have h0 : ∀ e s d, call0.impl F e s d = F.call [] := by
    intro e s d
    simp [call0.impl, hF, call0.impl2]
  have h1 : ∀ B0, call1.impl F B0 expr state data = F.call [when_ B0 expr state data] := by
    intro B0
    simp [call1.impl, hF, call1.impl2, as_mono_function, as_lvalue]
  have h2 : ∀ B0 B1, call2.impl F B0 B1 expr state data =
      F.call [when_ B0 expr state data, when_ B1 expr state data] := by
    intro B0 B1
    simp [call2.impl, hF, call2.impl2, as_mono_function, as_lvalue]
  have h3 : ∀ B0 B1 B2, call3.impl F B0 B1 B2 expr state data =
      F.call [when_ B0 expr state data, when_ B1 expr state data,
        when_ B2 expr state data] := by
    intro B0 B1 B2
    simp [call3.impl, hF, call3.impl2, as_mono_function, as_lvalue]
  refine ⟨⟨h0 _ _ _, fun e s d => by rw [h0, h0]⟩, h1 A0, h2 A0 A1, h3 A0 A1 A2, ?_,
    fun _ => rfl⟩
  intro m As hlen
  match As, hlen with
  | [], _ => simp [call_sig, h0]
  | [B0], _ => simp [call_sig, h1]
  | [B0, B1], _ => simp [call_sig, h2]
  | [B0, B1, B2], _ => simp [call_sig, h3]
  | _ :: _ :: _ :: _ :: _, h => simp at h

/-- Witness of C2: with the addition function as target, the pass-through of
the expression as `A0` and the constant 1 as `A1`, invoking on expression 5
yields 6. -/
theorem protocol_A_hand_written_witness :
    plus.is_transform = false ∧ call2.impl plus pass_expr (const_ 1) 5 7 9 = 6 :=
  ⟨rfl, (protocol_A_hand_written plus rfl pass_expr (const_ 1) pass_data 5 7 9).2.2.1.trans
    (by decide)⟩

/-- C3. Protocol B with one descriptor: when `Fun` is a transform,
`call<Fun(A0)>` returns `Fun::impl()(x, state, data)`, where `x` is `A0`
resolved against `(expr, state, data)` and `state`, `data` are the original
inputs. -/
theorem protocol_B_one_descriptor (F : Fun V) (hF : F.is_transform = true)
    (A0 : Transform V) (expr state data : V) :
    call1.impl F A0 expr state data = F.impl (when_ A0 expr state data) state data := by
  simp [call1.impl, hF, call1.impl2]

/-- Witness of C3: with the doubling transform as target and the
pass-through of the expression as `A0`, invoking on expression 5 yields 10. -/
theorem protocol_B_one_descriptor_witness :
    doubler.is_transform = true ∧ call1.impl doubler pass_expr 5 7 9 = 10 :=
  ⟨rfl, (protocol_B_one_descriptor doubler rfl pass_expr 5 7 9).trans (by decide)⟩

/-- C4. Protocol B with two descriptors: when `Fun` is a transform,
`call<Fun(A0, A1)>` returns `Fun::impl()(x, y, data)` with `x`, `y` the two
descriptors resolved against the original `(expr, state, data)`: the resolved
`A1` is in the state slot, the data is the original one, and the original
state reaches `Fun` only through the descriptors (a state on which both
descriptors resolve to the same values gives the same result). -/
theorem protocol_B_two_descriptors (F : Fun V) (hF : F.is_transform = true)
    (A0 A1 : Transform V) (expr state data : V) :
    call2.impl F A0 A1 expr state data =
      F.impl (when_ A0 expr state data) (when_ A1 expr state data) data ∧
    (∀ state2 : V, when_ A0 expr state2 data = when_ A0 expr state data →
      when_ A1 expr state2 data = when_ A1 expr state data →
      call2.impl F A0 A1 expr state2 data = call2.impl F A0 A1 expr state data) := by
  have h : ∀ s, call2.impl F A0 A1 expr s data =
      F.impl (when_ A0 expr s data) (when_ A1 expr s data) data := by
    intro s
    simp [call2.impl, hF, call2.impl2]
  refine ⟨h state, fun state2 e0 e1 => ?_⟩
  rw [h, h, e0, e1]

/-- Witness of C4: the adding transform with the descriptors "expression" and
"data" on `(5, 100, 2)` receives `(5, 2, 2)`: the state 100 is not passed. -/
theorem protocol_B_two_descriptors_witness :
    add3.is_transform = true ∧ call2.impl add3 pass_expr pass_data 5 100 2 = 9 :=
  ⟨rfl, (protocol_B_two_descriptors add3 rfl pass_expr pass_data 5 100 2).1.trans
    (by decide)⟩

/-- C5. Protocol B with three descriptors: when `Fun` is a transform,
`call<Fun(A0, A1, A2)>` returns `Fun::impl()(x, y, z)` with `x`, `y`, `z` the
three descriptors resolved against the original `(expr, state, data)`; the
three inputs reach `Fun` only through the descriptors, so inputs on which all
three descriptors resolve to the same values give the same result. -/
theorem protocol_B_three_descriptors (F : Fun V) (hF : F.is_transform = true)
    (A0 A1 A2 : Transform V) (expr state data : V) :
    call3.impl F A0 A1 A2 expr state data =
      F.impl (when_ A0 expr state data) (when_ A1 expr state data)
        (when_ A2 expr state data) ∧
    (∀ expr2 state2 data2 : V,
      when_ A0 expr2 state2 data2 = when_ A0 expr state data →
      when_ A1 expr2 state2 data2 = when_ A1 expr state data →
      when_ A2 expr2 state2 data2 = when_ A2 expr state data →
      call3.impl F A0 A1 A2 expr2 state2 data2 =
        call3.impl F A0 A1 A2 expr state data) := by
  have h : ∀ e s d, call3.impl F A0 A1 A2 e s d =
      F.impl (when_ A0 e s d) (when_ A1 e s d) (when_ A2 e s d) := by
    intro e s d
    simp [call3.impl, hF, call3.impl2]
  refine ⟨h _ _ _, fun expr2 state2 data2 e0 e1 e2 => ?_⟩
  rw [h, h, e0, e1, e2]

/-- Witness of C5: the adding transform with three constant descriptors
receives `(1, 2, 3)` whatever the inputs are. -/
theorem protocol_B_three_descriptors_witness :
    add3.is_transform = true ∧
    call3.impl add3 (const_ 1) (const_ 2) (const_ 3) 5 6 7 = 6 :=
  ⟨rfl, (protocol_B_three_descriptors add3 rfl (const_ 1) (const_ 2) (const_ 3) 5 6 7).1.trans
    (by decide)⟩

/-! ### The generated specialization -/

/-- The first `M0` is closed by the line `/**/`: the line that uses it,
`BOOST_PP_REPEAT(N, M0, ~)`, is left for the compiler. -/
theorem callN.typedef_lines_statements :
    statements callN.typedef_lines = ["BOOST_PP_REPEAT(N, M0, ~)"] := by
  decide

/-- The second `M0` is not closed: its last line ends in a backslash, the
`return` line is spliced into the definition of `M0`, and no statement is left
between the braces of `operator()`. -/
theorem callN.operator_body_eq : callN.operator_body = [] := by
  decide

/-- The generated `operator()` returns nothing, whatever it is given. -/
theorem callN.impl_eq (F : Fun V) (As : List (Transform V)) (expr state data : V) :
    callN.impl F As expr state data = Outcome.no_return := by
  simp [callN.impl, callN.operator_body_eq]

/-- A composite of a generated arity runs the generated `operator()`. -/
theorem call_sig_generated (m : Nat) (F : Fun V) (As : List (Transform V))
    (h4 : 4 ≤ As.length) (hm : As.length ≤ m) (expr state data : V) :
    call_sig m F As expr state data = Outcome.no_return := by
  match As, h4, hm with
  | [], h, _ => simp at h
  | [_], h, _ => simp at h
  | [_, _], h, _ => simp at h
  | [_, _, _], h, _ => simp at h
  | A0 :: A1 :: A2 :: A3 :: rest, _, hm =>
    simp only [call_sig]
    rw [if_pos hm, callN.impl_eq]

/-- The hand-written specializations invoke the target by the protocol that
`is_transform<Fun>::value` selects, as the spec words the two protocols. -/
theorem call_sig_hand_written (m : Nat) (F : Fun V) (As : List (Transform V))
    (h3 : As.length ≤ 3) (expr state data : V) :
    call_sig m F As expr state data =
      Outcome.value (if F.is_transform then spec_protocol_B F As expr state data
        else spec_protocol_A F As expr state data) := by
  match As, h3 with
  | [], _ =>
    cases hF : F.is_transform <;>
      simp [call_sig, call0.impl, call0.impl2, spec_protocol_A, spec_protocol_B, hF]
  | [A0], _ =>
    cases hF : F.is_transform <;>
      simp [call_sig, call1.impl, call1.impl2, spec_protocol_A, spec_protocol_B,
        as_mono_function, hF]
  | [A0, A1], _ =>
    cases hF : F.is_transform <;>
      simp [call_sig, call2.impl, call2.impl2, spec_protocol_A, spec_protocol_B,
        as_mono_function, hF]
  | [A0, A1, A2], _ =>
    cases hF : F.is_transform <;>
      simp [call_sig, call3.impl, call3.impl2, spec_protocol_A, spec_protocol_B,
        as_mono_function, hF]
  | _ :: _ :: _ :: _ :: _, h => simp at h

/-- In the hand-written specializations every descriptor is resolved against
the original `(expr, state, data)`, whatever its position: a target that is
not a transform receives the resolved values of a reordered descriptor list in
the same new order. -/
theorem call_sig_reorder (m n : Nat) (hn : n ≤ 3) (F : Fun V)
    (hF : F.is_transform = false) (a : Fin n → Transform V) (p : Fin n → Fin n)
    (expr state data : V) :
    call_sig m F (List.ofFn fun i => a (p i)) expr state data =
      Outcome.value (F.call (List.ofFn fun i => when_ (a (p i)) expr state data)) := by
  rw [call_sig_hand_written m F _ (by simpa using hn)]
  simp [hF, spec_protocol_A, as_lvalue, List.map_ofFn, Function.comp_def]

/-- The generated `operator()` consults neither `is_transform<Fun>::value` nor
`Fun::impl`: its outcome is the same for a target with the same call operator
and any other classification and transform implementation. -/
theorem callN.impl_ignores_impl (F : Fun V) (b : Bool) (g : V → V → V → V)
    (As : List (Transform V)) (expr state data : V) :
    callN.impl (Fun.mk b F.call g) As expr state data =
      callN.impl F As expr state data :=
  rfl

/-- C6. Generated higher arities, at arity 4 with `BOOST_PROTO_MAX_ARITY = 5`:
the body of the generated `operator()` holds no statement, so the composite
of the addition function with the descriptors expression, state, data and
constant 1, run on `(5, 2, 3)`, returns nothing, where the documented result
`Fun()(a0, a1, a2, a3)` is `5 + 2 + 3 + 1 = 11`. -/
theorem generated_arity_returns_nothing :
    callN.operator_body = [] ∧
    call_sig 5 plus [pass_expr, pass_state, pass_data, const_ 1] 5 2 3 =
      Outcome.no_return ∧
    callN_documented plus [pass_expr, pass_state, pass_data, const_ 1] 5 2 3 = 11 := by
  refine ⟨callN.operator_body_eq, call_sig_generated 5 plus _ (by decide) (by decide) 5 2 3, ?_⟩
  decide

/-- C8, as stated, fails at arity 4 with `BOOST_PROTO_MAX_ARITY = 5`: the
target is a transform, and on `(5, 2, 3)` Protocol B would return
`5 + 2 + 3 = 10`. The composite does not return that; its outcome is the same
for the target with the opposite classification, and the same for the
transform whose implementation returns 0, which Protocol B would tell apart. -/
theorem arity_4_ignores_is_transform :
    add3.is_transform = true ∧
    spec_protocol_B add3 [pass_expr, pass_state, pass_data, const_ 1] 5 2 3 = 10 ∧
    call_sig 5 add3 [pass_expr, pass_state, pass_data, const_ 1] 5 2 3 ≠
      Outcome.value (spec_protocol_B add3 [pass_expr, pass_state, pass_data, const_ 1] 5 2 3) ∧
    call_sig 5 (Fun.mk false add3.call add3.impl)
        [pass_expr, pass_state, pass_data, const_ 1] 5 2 3 =
      call_sig 5 add3 [pass_expr, pass_state, pass_data, const_ 1] 5 2 3 ∧
    call_sig 5 (Fun.mk true add3.call fun _ _ _ => 0)
        [pass_expr, pass_state, pass_data, const_ 1] 5 2 3 =
      call_sig 5 add3 [pass_expr, pass_state, pass_data, const_ 1] 5 2 3 := by
  refine ⟨rfl, by decide, by decide, rfl, rfl⟩

/-- C8, amended: for the arities 0 to 3 the protocol is decided by
`is_transform<Fun>::value` alone, for every descriptor list and all inputs:
the composite returns what Protocol B returns if it is true and what
Protocol A returns if it is false, so the same target with the other
classification is invoked by the other protocol. For the generated arities,
4 and up, the classifier is not consulted and `Fun::impl` is not used: the
outcome of the composite is the same for every classification and every
transform implementation of the target. -/
theorem protocol_selection (m : Nat) (F : Fun V) (As : List (Transform V))
    (expr state data : V) :
    (As.length ≤ 3 →
      call_sig m F As expr state data =
        Outcome.value (if F.is_transform then spec_protocol_B F As expr state data
          else spec_protocol_A F As expr state data) ∧
      call_sig m (Fun.mk true F.call F.impl) As expr state data =
        Outcome.value (spec_protocol_B F As expr state data) ∧
      call_sig m (Fun.mk false F.call F.impl) As expr state data =
        Outcome.value (spec_protocol_A F As expr state data)) ∧
    (4 ≤ As.length → ∀ (b : Bool) (g : V → V → V → V),
      call_sig m (Fun.mk b F.call g) As expr state data =
        call_sig m F As expr state data) := by
  refine ⟨fun h3 => ⟨call_sig_hand_written m F As h3 expr state data, ?_, ?_⟩,
    fun h4 b g => ?_⟩
  · rw [call_sig_hand_written m _ As h3 expr state data]
    simp [spec_protocol_B]
  · rw [call_sig_hand_written m _ As h3 expr state data]
    simp [spec_protocol_A]
  · match As, h4 with
    | [], h => simp at h
    | [_], h => simp at h
    | [_, _], h => simp at h
    | [_, _, _], h => simp at h
    | A0 :: A1 :: A2 :: A3 :: rest, _ =>
      rfl

/-- Witness of C8, amended: with one descriptor the adding transform is
invoked by Protocol B (`5 + 1 + 0 = 6` on `(5, 1, 0)`) and the same target
classified as an ordinary callable by Protocol A (`Fun()(5) = 5`); with four
descriptors the outcome is the same for both classifications. -/
theorem protocol_selection_witness :
    (call_sig 5 add3 [pass_expr] 5 1 0 = Outcome.value 6 ∧
      call_sig 5 (Fun.mk false add3.call add3.impl) [pass_expr] 5 1 0 = Outcome.value 5) ∧
    call_sig 5 (Fun.mk false add3.call add3.impl)
        [pass_expr, pass_state, pass_data, const_ 1] 5 1 0 =
      call_sig 5 add3 [pass_expr, pass_state, pass_data, const_ 1] 5 1 0 :=
  ⟨⟨((protocol_selection 5 add3 [pass_expr] 5 1 0).1 (by decide)).1.trans (by decide),
      ((protocol_selection 5 add3 [pass_expr] 5 1 0).1 (by decide)).2.2.trans (by decide)⟩,
    (protocol_selection 5 add3 [pass_expr, pass_state, pass_data, const_ 1] 5 1 0).2
      (by decide) false add3.impl⟩

/-- C9 at arity 4 with `BOOST_PROTO_MAX_ARITY = 5`: the generated `operator()`
resolves no descriptor. On `(5, 2, 3)` four descriptors "expression" resolve to
`5, 5, 5, 5` and four constants 1 to `1, 1, 1, 1` (the addition function would
return 20 and 4), yet both composites have the same outcome, and none of the
resolved values reaches the target. -/
theorem generated_arity_resolves_no_descriptor :
    call_sig 5 plus [pass_expr, pass_expr, pass_expr, pass_expr] 5 2 3 =
      call_sig 5 plus [const_ 1, const_ 1, const_ 1, const_ 1] 5 2 3 ∧
    call_sig 5 plus [pass_expr, pass_expr, pass_expr, pass_expr] 5 2 3 ≠
      Outcome.value (plus.call [5, 5, 5, 5]) ∧
    callN_documented plus [pass_expr, pass_expr, pass_expr, pass_expr] 5 2 3 = 20 ∧
    callN_documented plus [const_ 1, const_ 1, const_ 1, const_ 1] 5 2 3 = 4 := by
  have h : ∀ As : List (Transform Int), As.length = 4 →
      call_sig 5 plus As 5 2 3 = Outcome.no_return := fun As hA =>
    call_sig_generated 5 plus As (by omega) (by omega) 5 2 3
  have hA := h [pass_expr, pass_expr, pass_expr, pass_expr] rfl
  have hB := h [const_ 1, const_ 1, const_ 1, const_ 1] rfl
  refine ⟨hA.trans hB.symm, ?_, by decide, by decide⟩
  rw [hA]
  exact fun e => Outcome.noConfusion e

/-- C10. The callable wrapper: for a primitive transform `T`, the primary
template `call<T>` has the implementation, the call operator and the
classification of `T`; `is_callable<call<Fun> >` is true for every `Fun`;
hence `call<T>(A0)`, which is a call because `call<T>` is callable, is the
transform `call<T(A0)>` and returns the same on every `(expr, state, data)`. -/
theorem callable_wrapper (T : Fun V) (hT : T.is_transform = true) (A0 : Transform V)
    (expr state data : V) :
    ((call T).impl expr state data = T.impl expr state data ∧
      (call T).is_transform = true ∧ ∀ args, (call T).call args = T.call args) ∧
    (∀ F : Fun V, is_callable_call F = true) ∧
    (∃ t, when_sig (is_callable_call T) (call T) A0 = some t ∧
      t expr state data = call1.impl T A0 expr state data ∧
      t expr state data = T.impl (when_ A0 expr state data) state data) := by
  refine ⟨⟨rfl, hT, fun _ => rfl⟩, fun _ => rfl, call1.impl (call T) A0, ?_, rfl, ?_⟩
  · simp [when_sig, is_callable_call]
  · simp [call1.impl, call, hT, call1.impl2]

/-- Witness of C10: for the doubling transform, `call<T>(A0)` with the
descriptor "expression" yields 10 on expression 5, as `call<T(A0)>` does. -/
theorem callable_wrapper_witness :
    doubler.is_transform = true ∧
    ∃ t, when_sig (is_callable_call doubler) (call doubler) pass_expr = some t ∧
      t 5 7 9 = call1.impl doubler pass_expr 5 7 9 ∧ t 5 7 9 = 10 :=
  ⟨rfl, (callable_wrapper doubler rfl pass_expr 5 7 9).2.2.imp
    fun _ h => ⟨h.1, h.2.1, h.2.2.trans (by decide)⟩⟩

/-! ### Descriptors and targets that may fail -/

/-- An exception that leaves the evaluation of the arguments is the exception
of one of the arguments. -/
theorem first_thrown_mem (ord : List Nat) (rs : List (Except E V)) (x : E)
    (h : first_thrown ord rs = some x) : Except.error x ∈ rs := by
  induction ord with
  | nil => simp [first_thrown] at h
  | cons i rest ih =>
    unfold first_thrown at h
    rw [List.findSome?_cons] at h
    cases hi : rs[i]? with
    | none =>
      rw [hi] at h
      exact ih h
    | some r =>
      rw [hi] at h
      cases r with
      | ok v => exact ih h
      | error y =>
        have hy : y = x := by simpa using h
        subst hy
        exact List.getElem?_mem hi

/-- No exception leaves the evaluation of arguments that all return. -/
theorem first_thrown_ok (ord : List Nat) (vs : List V) :
    first_thrown ord (vs.map (Except.ok : V → Except E V)) = none := by
  induction ord with
  | nil => simp [first_thrown]
  | cons i rest ih =>
    unfold first_thrown
    rw [List.findSome?_cons]
    cases hi : (vs.map (Except.ok : V → Except E V))[i]? with
    | none => exact ih
    | some r =>
      cases r with
      | ok v => exact ih
      | error y =>
        have hmem := List.getElem?_mem hi
        simp at hmem

/-- Two arguments that return are handed on as they are. -/
theorem arguments2_ok (ord : List Nat) (a0 a1 : V) :
    arguments2 ord (Except.ok a0 : Except E V) (Except.ok a1) = Except.ok (a0, a1) := by
  have h := first_thrown_ok (E := E) ord [a0, a1]
  simp only [List.map] at h
  simp only [arguments2, h]
  rfl

/-- An exception out of the evaluation of two arguments is the exception of
one of them. -/
theorem arguments2_error (ord : List Nat) (r0 r1 : Except E V) (x : E)
    (h : arguments2 ord r0 r1 = Except.error x) :
    r0 = Except.error x ∨ r1 = Except.error x := by
  unfold arguments2 at h
  cases hf : first_thrown ord [r0, r1] with
  | some y =>
    rw [hf] at h
    have hy : y = x := by simpa using h
    subst hy
    simpa [eq_comm] using first_thrown_mem ord _ y hf
  | none =>
    rw [hf] at h
    cases r0 with
    | error y => exact Or.inl (by simpa [bind, Except.bind] using h)
    | ok v0 =>
      cases r1 with
      | error y => exact Or.inr (by simpa [bind, Except.bind] using h)
      | ok v1 => simp [bind, Except.bind, pure, Except.pure] at h

/-- Three arguments that return are handed on as they are. -/
theorem arguments3_ok (ord : List Nat) (a0 a1 a2 : V) :
    arguments3 ord (Except.ok a0 : Except E V) (Except.ok a1) (Except.ok a2) =
      Except.ok (a0, a1, a2) := by
  have h := first_thrown_ok (E := E) ord [a0, a1, a2]
  simp only [List.map] at h
  simp only [arguments3, h]
  rfl

/-- An exception out of the evaluation of three arguments is the exception of
one of them. -/
theorem arguments3_error (ord : List Nat) (r0 r1 r2 : Except E V) (x : E)
    (h : arguments3 ord r0 r1 r2 = Except.error x) :
    r0 = Except.error x ∨ r1 = Except.error x ∨ r2 = Except.error x := by
  unfold arguments3 at h
  cases hf : first_thrown ord [r0, r1, r2] with
  | some y =>
    rw [hf] at h
    have hy : y = x := by simpa using h
    subst hy
    simpa [eq_comm] using first_thrown_mem ord _ y hf
  | none =>
    rw [hf] at h
    cases r0 with
    | error y => exact Or.inl (by simpa [bind, Except.bind] using h)
    | ok v0 =>
      cases r1 with
      | error y => exact Or.inr (Or.inl (by simpa [bind, Except.bind] using h))
      | ok v1 =>
        cases r2 with
        | error y => exact Or.inr (Or.inr (by simpa [bind, Except.bind] using h))
        | ok v2 => simp [bind, Except.bind, pure, Except.pure] at h

/-- Success in the hand-written specializations: when every descriptor
returns, the composite returns or throws exactly what the target returns or
throws on the resolved values, whatever the evaluation order. -/
theorem call_sig_throwing_ok (m : Nat) (ord : List Nat) (F : ThrowingFun E V)
    (As : List (ThrowingTransform E V)) (vs : List V) (h3 : As.length ≤ 3)
    (expr state data : V)
    (hvs : As.map (fun A => A expr state data) = vs.map Except.ok) :
    call_sig_throwing m ord F As expr state data =
      Outcome.value (target_on F vs expr state data) := by
  match As, h3, vs, hvs with
  | [], _, [], _ =>
    cases hF : F.is_transform <;>
      simp [call_sig_throwing, call0.impl_throwing, call0.impl2_throwing, target_on, hF]
  | [A0], _, [v0], h =>
    have h0 : A0 expr state data = Except.ok v0 := by simpa using h
    cases hF : F.is_transform <;>
      simp [call_sig_throwing, call1.impl_throwing, call1.impl2_throwing, target_on,
        when_throwing, as_lvalue, hF, h0, bind, Except.bind]
  | [A0, A1], _, [v0, v1], h =>
    have h0 : A0 expr state data = Except.ok v0 := by simp at h; exact h.1
    have h1 : A1 expr state data = Except.ok v1 := by simp at h; exact h.2
    cases hF : F.is_transform <;>
      simp [call_sig_throwing, call2.impl_throwing, call2.impl2_throwing, target_on,
        when_throwing, as_lvalue, hF, h0, h1, arguments2_ok, bind, Except.bind]
  | [A0, A1, A2], _, [v0, v1, v2], h =>
    have h0 : A0 expr state data = Except.ok v0 := by simp at h; exact h.1
    have h1 : A1 expr state data = Except.ok v1 := by simp at h; exact h.2.1
    have h2 : A2 expr state data = Except.ok v2 := by simp at h; exact h.2.2
    cases hF : F.is_transform <;>
      simp [call_sig_throwing, call3.impl_throwing, call3.impl2_throwing, target_on,
        when_throwing, as_lvalue, hF, h0, h1, h2, arguments3_ok, bind, Except.bind]
  | [], _, _ :: _, h => simp at h
  | [_], _, [], h => simp at h
  | [_], _, _ :: _ :: _, h => simp at h
  | [_, _], _, [], h => simp at h
  | [_, _], _, [_], h => simp at h
  | [_, _], _, _ :: _ :: _ :: _, h => simp at h
  | [_, _, _], _, [], h => simp at h
  | [_, _, _], _, [_], h => simp at h
  | [_, _, _], _, [_, _], h => simp at h
  | [_, _, _], _, _ :: _ :: _ :: _ :: _, h => simp at h
  | _ :: _ :: _ :: _ :: _, h, _, _ => simp at h

/-- The generated `operator()` over functions that may throw returns nothing
and throws nothing, whatever it is given. -/
theorem callN.impl_throwing_eq (ord : List Nat) (F : ThrowingFun E V)
    (As : List (ThrowingTransform E V)) (expr state data : V) :
    callN.impl_throwing ord F As expr state data = Outcome.no_return := by
  simp [callN.impl_throwing, callN.operator_body_eq]

/-- A composite of a generated arity over functions that may throw runs the
generated `operator()`. -/
theorem call_sig_throwing_generated (m : Nat) (ord : List Nat) (F : ThrowingFun E V)
    (As : List (ThrowingTransform E V)) (h4 : 4 ≤ As.length) (hm : As.length ≤ m)
    (expr state data : V) :
    call_sig_throwing m ord F As expr state data = Outcome.no_return := by
  match As, h4, hm with
  | [], h, _ => simp at h
  | [_], h, _ => simp at h
  | [_, _], h, _ => simp at h
  | [_, _, _], h, _ => simp at h
  | A0 :: A1 :: A2 :: A3 :: rest, _, hm =>
    simp only [call_sig_throwing]
    rw [if_pos hm, callN.impl_throwing_eq]

/-- Two arguments are handed on only if both return. -/
theorem arguments2_inv (ord : List Nat) (r0 r1 : Except E V) (a0 a1 : V)
    (h : arguments2 ord r0 r1 = Except.ok (a0, a1)) :
    r0 = Except.ok a0 ∧ r1 = Except.ok a1 := by
  unfold arguments2 at h
  cases hf : first_thrown ord [r0, r1] with
  | some y => rw [hf] at h; cases h
  | none =>
    rw [hf] at h
    cases r0 with
    | error y => simp [bind, Except.bind] at h
    | ok v0 =>
      cases r1 with
      | error y => simp [bind, Except.bind] at h
      | ok v1 =>
        simp [bind, Except.bind, pure, Except.pure] at h
        rw [h.1, h.2]
        exact ⟨rfl, rfl⟩

/-- Three arguments are handed on only if all three return. -/
theorem arguments3_inv (ord : List Nat) (r0 r1 r2 : Except E V) (a0 a1 a2 : V)
    (h : arguments3 ord r0 r1 r2 = Except.ok (a0, a1, a2)) :
    r0 = Except.ok a0 ∧ r1 = Except.ok a1 ∧ r2 = Except.ok a2 := by
  unfold arguments3 at h
  cases hf : first_thrown ord [r0, r1, r2] with
  | some y => rw [hf] at h; cases h
  | none =>
    rw [hf] at h
    cases r0 with
    | error y => simp [bind, Except.bind] at h
    | ok v0 =>
      cases r1 with
      | error y => simp [bind, Except.bind] at h
      | ok v1 =>
        cases r2 with
        | error y => simp [bind, Except.bind] at h
        | ok v2 =>
          simp [bind, Except.bind, pure, Except.pure] at h
          rw [h.1, h.2.1, h.2.2]
          exact ⟨rfl, rfl, rfl⟩

/-- Failure in the hand-written specializations: an exception that leaves the
composite was thrown, unchanged, by one of its descriptors, or by the target
on the resolved values after every descriptor returned. -/
theorem call_sig_throwing_error (m : Nat) (ord : List Nat) (F : ThrowingFun E V)
    (As : List (ThrowingTransform E V)) (h3 : As.length ≤ 3) (expr state data : V)
    (x : E)
    (h : call_sig_throwing m ord F As expr state data = Outcome.value (Except.error x)) :
    (∃ A ∈ As, A expr state data = Except.error x) ∨
    ∃ vs : List V, As.map (fun A => A expr state data) = vs.map Except.ok ∧
      target_on F vs expr state data = Except.error x := by
  have key : ∀ vs : List V, As.map (fun A => A expr state data) = vs.map Except.ok →
      target_on F vs expr state data = Except.error x := by
    intro vs hvs
    rw [call_sig_throwing_ok m ord F As vs h3 expr state data hvs] at h
    exact Outcome.value.inj h
  match As, h3, h, key with
  | [], _, _, key => exact Or.inr ⟨[], rfl, key [] rfl⟩
  | [A0], _, h, key =>
    cases h0 : A0 expr state data with
    | ok v0 => exact Or.inr ⟨[v0], by simp [h0], key [v0] (by simp [h0])⟩
    | error y =>
      have hy : y = x := by
        cases hF : F.is_transform <;>
          simpa [call_sig_throwing, call1.impl_throwing, call1.impl2_throwing,
            when_throwing, hF, h0, bind, Except.bind] using h
      exact Or.inl ⟨A0, by simp, by rw [h0, hy]⟩
  | [A0, A1], _, h, key =>
    cases ha : arguments2 ord (A0 expr state data) (A1 expr state data) with
    | ok p =>
      obtain ⟨h0, h1⟩ := arguments2_inv ord _ _ p.1 p.2 ha
      exact Or.inr ⟨[p.1, p.2], by simp [h0, h1], key [p.1, p.2] (by simp [h0, h1])⟩
    | error y =>
      have hy : y = x := by
        cases hF : F.is_transform <;>
          simpa [call_sig_throwing, call2.impl_throwing, call2.impl2_throwing,
            when_throwing, hF, ha, bind, Except.bind] using h
      subst hy
      rcases arguments2_error ord _ _ y ha with h0 | h1
      · exact Or.inl ⟨A0, by simp, h0⟩
      · exact Or.inl ⟨A1, by simp, h1⟩
  | [A0, A1, A2], _, h, key =>
    cases ha : arguments3 ord (A0 expr state data) (A1 expr state data)
        (A2 expr state data) with
    | ok p =>
      obtain ⟨h0, h1, h2⟩ := arguments3_inv ord _ _ _ p.1 p.2.1 p.2.2 ha
      exact Or.inr ⟨[p.1, p.2.1, p.2.2], by simp [h0, h1, h2],
        key [p.1, p.2.1, p.2.2] (by simp [h0, h1, h2])⟩
    | error y =>
      have hy : y = x := by
        cases hF : F.is_transform <;>
          simpa [call_sig_throwing, call3.impl_throwing, call3.impl2_throwing,
            when_throwing, hF, ha, bind, Except.bind] using h
      subst hy
      rcases arguments3_error ord _ _ _ y ha with h0 | h1 | h2
      · exact Or.inl ⟨A0, by simp, h0⟩
      · exact Or.inl ⟨A1, by simp, h1⟩
      · exact Or.inl ⟨A2, by simp, h2⟩
  | _ :: _ :: _ :: _ :: _, h, _, _ => simp at h

/-- In a hand-written composite the exception of the target is propagated
unchanged: dividing the expression 7 by the data 0 throws the target's
"division by zero", whatever the evaluation order. -/
theorem divide_by_zero_propagates (ord : List Nat) :
    call_sig_throwing 5 ord divide [returning pass_expr, returning pass_data] 7 2 0 =
      Outcome.value (Except.error "division by zero") := by
  rw [call_sig_throwing_ok 5 ord divide [returning pass_expr, returning pass_data] [7, 0]
    (by decide) 7 2 0 rfl]
  rfl

/-- In a hand-written composite the exception of a descriptor is propagated
unchanged, and of two descriptors that throw, the one evaluated first is
seen. -/
theorem descriptor_exception_propagates :
    call_sig_throwing 5 [0, 1] divide [throwing "a", throwing "b"] 7 2 0 =
      Outcome.value (Except.error "a") ∧
    call_sig_throwing 5 [1, 0] divide [throwing "a", throwing "b"] 7 2 0 =
      Outcome.value (Except.error "b") :=
  ⟨rfl, rfl⟩

/-- C11 at arity 4 with `BOOST_PROTO_MAX_ARITY = 5`: every descriptor of
`call<plus(_expr, _state, _data, 1)>` returns on `(5, 2, 3)` (the values
5, 2, 3, 1) and the target returns 11 on them, no exception is thrown
anywhere, and yet, in every evaluation order, the composite does not return
the target's result: the generated `operator()` returns nothing. -/
theorem generated_arity_loses_the_result :
    [returning pass_expr, returning pass_state, returning pass_data,
        returning (const_ 1)].map (fun A => A 5 2 3) =
      [Except.ok 5, Except.ok 2, Except.ok 3, (Except.ok 1 : Except String Int)] ∧
    plus_returning.call [5, 2, 3, 1] = Except.ok 11 ∧
    ∀ ord : List Nat,
      call_sig_throwing 5 ord plus_returning
          [returning pass_expr, returning pass_state, returning pass_data,
            returning (const_ 1)] 5 2 3 = Outcome.no_return ∧
      call_sig_throwing 5 ord plus_returning
          [returning pass_expr, returning pass_state, returning pass_data,
            returning (const_ 1)] 5 2 3 ≠ Outcome.value (Except.ok 11) := by
  refine ⟨rfl, rfl, fun ord => ?_⟩
  have h := call_sig_throwing_generated 5 ord plus_returning
    [returning pass_expr, returning pass_state, returning pass_data, returning (const_ 1)]
    (by decide) (by decide) 5 2 3
  refine ⟨h, ?_⟩
  rw [h]
  exact fun e => Outcome.noConfusion e

end Proto
